import Mathlib

/-!
# streamlabs.c : graph construction and lifecycle of the publishing pipeline

A shallow embedding of `src/streamlabs.c`.  The program is one `main` that
drives the GStreamer/GLib API.  Every API call of the source is recorded, in
program order, as an `Event`; the results the library hands back (does the
factory return NULL, does a link succeed, which messages does the bus
dispatch) are the fields of an environment `Env`.  `main env` is the run of the
program in that environment: the trace of calls it makes and how it ends.

Local string buffers (`g_string_new`, `g_string_printf`, `g_string_free`) are
folded into the element names they compute.
-/

namespace Streamlabs

/-! ## Data model -/

/-- The objects `main` creates: the fields of `CustomData` (source lines 7-14). -/
inductive Elem
  | pipeline
  | videosource (i : Nat)
  | timeoverlay (i : Nat)
  | mixer
  | tee
  | playback_queue
  | playback_convert
  | playback_sink
  | network_queue
  | rtmpsink
  | flvmux
  | x264enc
  deriving DecidableEq, Repr

/-- A pad: either the `n`-th pad requested from `owner` (in request order), or
the pad of `owner` looked up by name. -/
inductive Pad
  | request (owner : Elem) (n : Nat)
  | static (owner : Elem) (name : String)
  deriving DecidableEq, Repr

/-- Values passed to `g_object_set`. -/
inductive GValue
  | int (n : Int)
  | bool (b : Bool)
  | str (s : String)
  deriving DecidableEq, Repr

/-- The two pipeline states the program asks for. -/
inductive GstState
  | GST_STATE_NULL
  | GST_STATE_PLAYING
  deriving DecidableEq, Repr

/-- Result of `gst_element_set_state`. -/
inductive GstStateChangeReturn
  | FAILURE
  | SUCCESS
  | ASYNC
  | NO_PREROLL
  deriving DecidableEq, Repr

/-- The fields of the caps built by `gst_caps_new_simple` (source lines 37-42). -/
structure Caps where
  media : String
  format : String
  width : Int
  height : Int
  framerate_num : Int
  framerate_den : Int
  deriving DecidableEq, Repr

/-- A message dispatched by the bus watch while the main loop runs.  Only
`error` messages reach a handler: `main` connects `message::error` alone. -/
inductive BusMessage
  | error (src : String) (message : String) (debug_info : Option String)
  | other (kind : String)
  deriving DecidableEq, Repr

/-- Is the message a fault (an `error` message)? -/
def BusMessage.is_error : BusMessage → Bool
  | BusMessage.error _ _ _ => true
  | BusMessage.other _ => false

/-- One library call made by the program, with its arguments and, where the
program reads it, its result.  A NULL handle is `none`. -/
inductive Event
  | g_option_context_new (summary : String)
  | g_option_context_add_main_entries (long_name : String) (short_name : Char)
  | gst_init_get_option_group
  | g_option_context_add_group
  | g_option_context_parse (ok : Bool)
  | g_option_context_free
  | g_print (s : String)
  | g_printerr (s : String)
  | g_warning (s : String)
  | g_clear_error
  | g_free
  | gst_init
  | gst_element_factory_make (factory : String) (name : String) (result : Option Elem)
  | gst_pipeline_new (name : String) (result : Option Elem)
  | g_object_set (obj : Option Elem) (prop : String) (v : GValue)
  | g_object_set_pad (pad : Option Pad) (prop : String) (v : GValue)
  | gst_bin_add_many (bin : Option Elem) (elems : List Elem)
  | gst_caps_new_simple (caps : Caps)
  | gst_caps_unref
  | gst_element_link_filtered (a b : Option Elem) (caps : Caps) (ok : Bool)
  | gst_element_link (a b : Option Elem) (ok : Bool)
  | gst_element_link_many (chain : List (Option Elem)) (ok : Bool)
  | gst_element_get_request_pad (e : Option Elem) (templ : String) (result : Option Pad)
  | gst_element_get_static_pad (e : Option Elem) (name : String) (result : Option Pad)
  | gst_pad_link (src sink : Option Pad) (ok : Bool)
  | gst_object_unref_pad (p : Option Pad)
  | gst_object_unref (e : Option Elem)
  | gst_element_get_bus (e : Option Elem)
  | gst_bus_add_signal_watch
  | g_signal_connect (signal : String)
  | gst_object_unref_bus
  | gst_element_set_state (e : Option Elem) (s : GstState) (ret : GstStateChangeReturn)
  | g_main_loop_new
  | g_main_loop_run
  | gst_message_parse_error
  | g_main_loop_quit
  | gst_element_release_request_pad (e : Option Elem) (p : Option Pad)
  deriving DecidableEq, Repr

/-- How a run of `main` ends: it returns `code`, or it stays blocked in
`g_main_loop_run` because nothing ever asks the loop to quit. -/
inductive Outcome
  | returned (code : Int)
  | blocked
  deriving DecidableEq, Repr

/-- A run: the calls made, in order, and the way the run ends. -/
structure Run where
  trace : List Event
  outcome : Outcome
  deriving DecidableEq, Repr

/-- The run `r` preceded by the calls `pre`. -/
def Run.after (pre : List Event) (r : Run) : Run :=
  ⟨pre ++ r.trace, r.outcome⟩

/-- What the library and the command line hand to the program. -/
structure Env where
  /-- result of `g_option_context_parse` (line 68) -/
  parse_ok : Bool
  /-- `err->message` when parsing failed -/
  parse_error : String
  /-- value of `rtmplink` after parsing; `none` is NULL (option not given) -/
  rtmplink : Option String
  /-- does `gst_element_factory_make` / `gst_pipeline_new` return non-NULL -/
  make_ok : Elem → Bool
  /-- result of `gst_element_link_filtered` -/
  link_filtered_ok : Option Elem → Option Elem → Bool
  /-- result of `gst_element_link` -/
  link_ok : Option Elem → Option Elem → Bool
  /-- result of `gst_element_link_many` -/
  link_many_ok : List (Option Elem) → Bool
  /-- does `gst_pad_link` return `GST_PAD_LINK_OK` -/
  pad_link_ok : Option Pad → Option Pad → Bool
  /-- result of `gst_element_set_state` on the pipeline, per requested state -/
  set_state_ret : GstState → GstStateChangeReturn
  /-- messages the bus watch dispatches, in order, once the loop runs -/
  bus : List BusMessage

/-- The record `CustomData` (source lines 7-14); `sourceid` is never used and
`main_loop` is set just before the loop runs. -/
structure CustomData where
  pipeline : Option Elem
  videosource : Nat → Option Elem
  timeoverlay : Nat → Option Elem
  mixer : Option Elem
  tee : Option Elem
  playback_queue : Option Elem
  playback_convert : Option Elem
  playback_sink : Option Elem
  network_queue : Option Elem
  rtmpsink : Option Elem
  flvmux : Option Elem
  x264enc : Option Elem

/-! ## Library results -/

/-- Handle returned by an element factory or `gst_pipeline_new`. -/
def make (env : Env) (e : Elem) : Option Elem :=
  if env.make_ok e then some e else none

/-- A NULL-terminated variadic argument list: the arguments up to, not
including, the first NULL. -/
def varargs : List (Option Elem) → List Elem
  | [] => []
  | none :: _ => []
  | some e :: rest => e :: varargs rest

/-- Pad returned by `gst_element_get_request_pad (e, templ)`, the `n`-th request. -/
def request_pad (e : Option Elem) (n : Nat) : Option Pad :=
  e.map (fun x => Pad.request x n)

/-- Pad returned by `gst_element_get_static_pad (e, name)`. -/
def static_pad (e : Option Elem) (name : String) : Option Pad :=
  e.map (fun x => Pad.static x name)

/-! ## `error_cb` (source lines 17-29) -/

/-- The handler of `message::error`: prints the fault, frees, and asks the
loop to quit.  There is no branch other than the choice of the text printed
for an absent `debug_info`. -/
def error_cb (src message : String) (debug_info : Option String) : List Event :=
  [ Event.gst_message_parse_error,
    Event.g_printerr ("Error received from element " ++ src ++ ": " ++ message ++ "\n"),
    Event.g_printerr ("Debugging information: " ++
      (match debug_info with
       | some d => d
       | none => "none") ++ "\n"),
    Event.g_clear_error,
    Event.g_free,
    Event.g_main_loop_quit ]

/-- The dispatch loop `g_main_loop_run`: one bus message per iteration; an
`error` message runs `error_cb`, whose quit request ends the loop.  Returns the
calls made by handlers and whether the loop ended (`false`: the messages ran
out and the loop keeps waiting). -/
def g_main_loop_run : List BusMessage → List Event × Bool
  | [] => ([], false)
  | BusMessage.error src message debug_info :: _ => (error_cb src message debug_info, true)
  | BusMessage.other _ :: rest => g_main_loop_run rest

/-! ## `link_elements_with_filter` (source lines 31-52) -/

/-- The caps of source lines 37-42. -/
def filter_caps : Caps :=
  { media := "video/x-raw", format := "I420", width := 640, height := 360,
    framerate_num := 30, framerate_den := 1 }

/-- Calls made by `link_elements_with_filter` and its return value. -/
def link_elements_with_filter (env : Env) (element1 element2 : Option Elem) :
    List Event × Bool :=
  let caps := filter_caps
  let link_ok := env.link_filtered_ok element1 element2
  ([Event.gst_caps_new_simple caps,
    Event.gst_element_link_filtered element1 element2 caps link_ok,
    Event.gst_caps_unref] ++
   (if !link_ok then [Event.g_warning "Failed to link element1 and element2!"] else []),
   link_ok)

/-! ## `main` (source lines 55-231) -/

/-- Source lines 220-230: release the request pads, stop, free, return 0.
The result of `gst_element_set_state` is not read. -/
def main_teardown (env : Env) (data : CustomData) (tee_playback_pad tee_network_pad : Option Pad) : Run :=
  ⟨[ Event.gst_element_release_request_pad data.tee tee_playback_pad,
     Event.gst_element_release_request_pad data.tee tee_network_pad,
     Event.gst_object_unref_pad tee_playback_pad,
     Event.gst_object_unref_pad tee_network_pad,
     Event.gst_element_set_state data.pipeline GstState.GST_STATE_NULL
       (env.set_state_ret GstState.GST_STATE_NULL),
     Event.gst_object_unref data.pipeline ],
   Outcome.returned 0⟩

/-- Source lines 191-218: the queue pads are unreferenced, the bus watch is
installed with `error_cb` on `message::error`, the compositor pads `sink_1` and
`sink_2` are placed, the pipeline is asked to play (the result of the request is
not read: line 214 is an expression statement), the main loop is created and
entered. -/
def main_start (env : Env) (data : CustomData)
    (queue_playback_pad queue_network_pad : Option Pad) : List Event :=
  let sink_1 := static_pad data.mixer "sink_1"
  let sink_2 := static_pad data.mixer "sink_2"
  [ Event.gst_object_unref_pad queue_playback_pad,
    Event.gst_object_unref_pad queue_network_pad,
    Event.gst_element_get_bus data.pipeline,
    Event.gst_bus_add_signal_watch,
    Event.g_signal_connect "message::error",
    Event.gst_object_unref_bus,
    Event.g_object_set data.mixer "background" (GValue.int 1),
    Event.gst_element_get_static_pad data.mixer "sink_1" sink_1,
    Event.gst_element_get_static_pad data.mixer "sink_2" sink_2,
    Event.g_object_set_pad sink_1 "xpos" (GValue.int 640),
    Event.g_object_set_pad sink_1 "ypos" (GValue.int 0),
    Event.g_object_set_pad sink_2 "xpos" (GValue.int 360),
    Event.g_object_set_pad sink_2 "ypos" (GValue.int 360),
    Event.gst_object_unref_pad sink_1,
    Event.gst_object_unref_pad sink_2,
    Event.gst_element_set_state data.pipeline GstState.GST_STATE_PLAYING
      (env.set_state_ret GstState.GST_STATE_PLAYING),
    Event.g_main_loop_new,
    Event.g_main_loop_run ]

/-- Source lines 191-230: `main_start`, the handlers the loop runs, and, once
the loop has ended, the teardown.  When no handler asks the loop to quit,
`g_main_loop_run` does not return. -/
def main_play (env : Env) (data : CustomData)
    (tee_playback_pad tee_network_pad queue_playback_pad queue_network_pad : Option Pad) : Run :=
  let pre := main_start env data queue_playback_pad queue_network_pad
  let loop := g_main_loop_run env.bus
  if loop.2 then
    Run.after (pre ++ loop.1) (main_teardown env data tee_playback_pad tee_network_pad)
  else
    ⟨pre ++ loop.1, Outcome.blocked⟩

/-- Source lines 177-189, then the rest: request the two tee pads and link
them to the queues. -/
def main_tee (env : Env) (data : CustomData) : Run :=
  let tee_playback_pad := request_pad data.tee 0
  let queue_playback_pad := static_pad data.playback_queue "sink"
  let tee_network_pad := request_pad data.tee 1
  let queue_network_pad := static_pad data.network_queue "sink"
  let pre :=
    [ Event.gst_element_get_request_pad data.tee "src_%u" tee_playback_pad,
      Event.gst_element_get_static_pad data.playback_queue "sink" queue_playback_pad,
      Event.gst_element_get_request_pad data.tee "src_%u" tee_network_pad,
      Event.gst_element_get_static_pad data.network_queue "sink" queue_network_pad,
      Event.gst_element_get_static_pad data.playback_queue "sink" queue_playback_pad ]
  let ok1 := env.pad_link_ok tee_playback_pad queue_playback_pad
  let l1 := [Event.gst_pad_link tee_playback_pad queue_playback_pad ok1]
  if !ok1 then
    Run.after (pre ++ l1)
      ⟨[Event.g_printerr "Tee could not be linked\n", Event.gst_object_unref data.pipeline],
       Outcome.returned (-1)⟩
  else
    let ok2 := env.pad_link_ok tee_network_pad queue_network_pad
    let l2 := [Event.gst_pad_link tee_network_pad queue_network_pad ok2]
    if !ok2 then
      Run.after (pre ++ l1 ++ l2)
        ⟨[Event.g_printerr "Tee could not be linked\n", Event.gst_object_unref data.pipeline],
         Outcome.returned (-1)⟩
    else
      Run.after (pre ++ l1 ++ l2)
        (main_play env data tee_playback_pad tee_network_pad queue_playback_pad queue_network_pad)

/-- Source lines 169-175, then the rest: the three `gst_element_link_many`
calls, evaluated left to right and stopping at the first that fails. -/
def main_chains (env : Env) (data : CustomData) : Run :=
  let c1 := [data.mixer, data.tee]
  let c2 := [data.network_queue, data.x264enc, data.flvmux, data.rtmpsink]
  let c3 := [data.playback_queue, data.playback_convert, data.playback_sink]
  let fail : Run :=
    ⟨[Event.g_printerr "Elements could not be linked.\n", Event.gst_object_unref data.pipeline],
     Outcome.returned (-1)⟩
  let e1 := [Event.gst_element_link_many c1 (env.link_many_ok c1)]
  if !env.link_many_ok c1 then Run.after e1 fail
  else
    let e2 := [Event.gst_element_link_many c2 (env.link_many_ok c2)]
    if !env.link_many_ok c2 then Run.after (e1 ++ e2) fail
    else
      let e3 := [Event.gst_element_link_many c3 (env.link_many_ok c3)]
      if !env.link_many_ok c3 then Run.after (e1 ++ e2 ++ e3) fail
      else Run.after (e1 ++ e2 ++ e3) (main_tee env data)

/-- Source lines 153-166: the loop over the sources `i`, then `k` once the
loop is through.  The first early return (filtered link failed) does not
unreference the pipeline; the second does. -/
def main_link_sources (env : Env) (data : CustomData) (k : Run) : List Nat → Run
  | [] => k
  | i :: rest =>
    let add := [Event.gst_bin_add_many data.pipeline
      (varargs [data.videosource i, data.timeoverlay i])]
    let f := link_elements_with_filter env (data.videosource i) (data.timeoverlay i)
    if !f.2 then
      Run.after (add ++ f.1)
        ⟨[Event.g_printerr "Can not link video source and time overlay.\n"],
         Outcome.returned (-1)⟩
    else
      let ok := env.link_ok (data.timeoverlay i) data.mixer
      let l := [Event.gst_element_link (data.timeoverlay i) data.mixer ok]
      if !ok then
        Run.after (add ++ f.1 ++ l)
          ⟨[Event.g_printerr "Elements could not be linked.\n",
            Event.gst_object_unref data.pipeline],
           Outcome.returned (-1)⟩
      else
        Run.after (add ++ f.1 ++ l) (main_link_sources env data k rest)

/-- Source lines 142-147: the loop checking the sources and overlays, then `k`. -/
def main_check_filters (data : CustomData) (k : Run) : List Nat → Run
  | [] => k
  | i :: rest =>
    if (data.videosource i).isNone || (data.timeoverlay i).isNone then
      ⟨[Event.g_printerr "Not all filters could be created.\n"], Outcome.returned (-1)⟩
    else main_check_filters data k rest

/-- Source lines 136-151, then the rest: the construction check (which does not
test `network_queue`), and the first `gst_bin_add_many`. -/
def main_check (env : Env) (data : CustomData) : Run :=
  if data.pipeline.isNone || data.mixer.isNone || data.tee.isNone ||
      data.playback_queue.isNone || data.playback_sink.isNone ||
      data.playback_convert.isNone || data.x264enc.isNone || data.flvmux.isNone ||
      data.rtmpsink.isNone then
    ⟨[Event.g_printerr "Not all elements could be created from pipeline.\n"],
     Outcome.returned (-1)⟩
  else
    main_check_filters data
      (Run.after
        [Event.gst_bin_add_many data.pipeline
          (varargs [data.mixer, data.tee, data.playback_queue, data.playback_sink,
            data.playback_convert, data.network_queue, data.x264enc, data.flvmux,
            data.rtmpsink])]
        (main_link_sources env data (main_chains env data) (List.range 3)))
      (List.range 3)

/-- Source lines 96-104: creation of source and overlay `i`. -/
def main_create_sources (env : Env) : List Nat → List Event
  | [] => []
  | i :: rest =>
    [ Event.gst_element_factory_make "videotestsrc" ("videotestsrc" ++ toString i)
        (make env (Elem.videosource i)),
      Event.gst_element_factory_make "timeoverlay" ("timeoverlay" ++ toString i)
        (make env (Elem.timeoverlay i)),
      Event.g_object_set (make env (Elem.videosource i)) "is-live" (GValue.bool true) ]
    ++ main_create_sources env rest

/-- The record after source line 134. -/
def main_data (env : Env) : CustomData :=
  { pipeline := make env Elem.pipeline
    videosource := fun i => make env (Elem.videosource i)
    timeoverlay := fun i => make env (Elem.timeoverlay i)
    mixer := make env Elem.mixer
    tee := make env Elem.tee
    playback_queue := make env Elem.playback_queue
    playback_convert := make env Elem.playback_convert
    playback_sink := make env Elem.playback_sink
    network_queue := make env Elem.network_queue
    rtmpsink := make env Elem.rtmpsink
    flvmux := make env Elem.flvmux
    x264enc := make env Elem.x264enc }

/-- Source lines 90-134: `gst_init`, creation and configuration of every
element and of the pipeline.  Lines 121-122 set `leaky` and
`max-size-buffers` on `data.playback_queue`, as lines 114-115 do. -/
def main_create_trace (env : Env) (rtmplink : String) : List Event :=
  let data := main_data env
  [Event.gst_init] ++ main_create_sources env (List.range 3) ++
  [ Event.gst_element_factory_make "videomixer" "videomixer" data.mixer,
    Event.gst_element_factory_make "tee" "tee" data.tee,
    Event.gst_element_factory_make "queue" "playback_queue" data.playback_queue,
    Event.g_object_set data.playback_queue "leaky" (GValue.int 2),
    Event.g_object_set data.playback_queue "max-size-buffers" (GValue.int 5),
    Event.gst_element_factory_make "videoconvert" "playback_videoconvert" data.playback_convert,
    Event.gst_element_factory_make "glimagesink" "playback_sink" data.playback_sink,
    Event.g_object_set data.playback_sink "sync" (GValue.bool false),
    Event.gst_element_factory_make "queue" "network_queue" data.network_queue,
    Event.g_object_set data.playback_queue "leaky" (GValue.int 2),
    Event.g_object_set data.playback_queue "max-size-buffers" (GValue.int 5),
    Event.gst_element_factory_make "x264enc" "x264enc" data.x264enc,
    Event.g_object_set data.x264enc "key-int-max" (GValue.int 15),
    Event.g_object_set data.x264enc "bitrate" (GValue.int 3000),
    Event.g_object_set data.x264enc "speed-preset" (GValue.int 1),
    Event.g_object_set data.x264enc "tune" (GValue.int 4),
    Event.gst_element_factory_make "flvmux" "flvmux" data.flvmux,
    Event.gst_element_factory_make "rtmpsink" "rtmpsink" data.rtmpsink,
    Event.g_object_set data.rtmpsink "location" (GValue.str rtmplink),
    Event.g_object_set data.rtmpsink "sync" (GValue.bool false),
    Event.gst_pipeline_new "pipeline" data.pipeline ]

/-- Calls of source lines 65-68, up to and including the parse. -/
def main_options (env : Env) : List Event :=
  [ Event.g_option_context_new "Publish to Twitch",
    Event.g_option_context_add_main_entries "rtmplink" 'r',
    Event.gst_init_get_option_group,
    Event.g_option_context_add_group,
    Event.g_option_context_parse env.parse_ok ]

/-- The program: source lines 55-231. -/
def main (env : Env) : Run :=
  if !env.parse_ok then
    ⟨main_options env ++
      [ Event.g_print ("Failed to initialize: " ++ env.parse_error ++ "\n"),
        Event.g_clear_error,
        Event.g_option_context_free ],
     Outcome.returned 1⟩
  else
    match env.rtmplink with
    | none =>
      ⟨main_options env ++
        [Event.g_option_context_free,
         Event.g_printerr "Please specify rtmp link to publish\n"],
       Outcome.returned (-1)⟩
    | some rtmplink =>
      Run.after
        (main_options env ++ [Event.g_option_context_free] ++ main_create_trace env rtmplink)
        (main_check env (main_data env))

/-! ## Predicates on runs and traces -/

/-- Calls that belong to start-up and graph construction: everything except the
state requests, the main loop, the fault handler, the release of request pads
and the placement of compositor pads. -/
def Event.startup : Event → Bool
  | Event.gst_element_set_state _ _ _ => false
  | Event.g_main_loop_new => false
  | Event.g_main_loop_run => false
  | Event.g_main_loop_quit => false
  | Event.gst_message_parse_error => false
  | Event.gst_element_release_request_pad _ _ => false
  | Event.g_object_set_pad _ _ _ => false
  | _ => true

/-- Does the call unreference an element or the pipeline. -/
def Event.is_unref : Event → Bool
  | Event.gst_object_unref _ => true
  | _ => false

/-- Calls of successful construction: start-up calls other than the
unreferencing of an element, which only the failure paths make. -/
def Event.building (e : Event) : Bool :=
  e.startup && !e.is_unref

/-- The two ways a run of `main` can go: it returns a non-zero code having made
start-up calls only, or it gets through construction (the pipeline, the mixer and
the tee exist) with building calls only and continues with `main_play`. -/
def Shape (env : Env) (r : Run) : Prop :=
  (∃ c : Int, c ≠ 0 ∧ r.outcome = Outcome.returned c ∧ ∀ e ∈ r.trace, e.startup = true) ∨
  (∃ pre : List Event, (∀ e ∈ pre, e.building = true) ∧
    make env Elem.pipeline = some Elem.pipeline ∧
    make env Elem.mixer = some Elem.mixer ∧
    make env Elem.tee = some Elem.tee ∧
    r = Run.after pre (main_play env (main_data env)
      (some (Pad.request Elem.tee 0)) (some (Pad.request Elem.tee 1))
      (static_pad (make env Elem.playback_queue) "sink")
      (static_pad (make env Elem.network_queue) "sink")))

/-- Library contract, not code of this program: has GStreamer been initialised
by the end of the calls, given whether the GStreamer option group has been
obtained (`group`) and added to the option context (`added`).  `gst_init`
initialises the framework; so does a successful `g_option_context_parse` of a
context holding the group returned by `gst_init_get_option_group`, whose parse
hooks run the initialisation. -/
def framework_initialised_from (group added : Bool) : List Event → Bool
  | [] => false
  | Event.gst_init :: _ => true
  | Event.gst_init_get_option_group :: rest => framework_initialised_from true added rest
  | Event.g_option_context_add_group :: rest =>
    framework_initialised_from group (added || group) rest
  | Event.g_option_context_parse ok :: rest =>
    if ok && added then true else framework_initialised_from group added rest
  | _ :: rest => framework_initialised_from group added rest

/-- Has GStreamer been initialised by the end of the calls of a run. -/
def framework_initialised (trace : List Event) : Bool :=
  framework_initialised_from false false trace

/-- Does the call record a link or a pad request: the wiring of the graph. -/
def Event.is_wiring : Event → Bool
  | Event.gst_element_link_filtered _ _ _ _ => true
  | Event.gst_element_link _ _ _ => true
  | Event.gst_element_link_many _ _ => true
  | Event.gst_element_get_request_pad _ _ _ => true
  | Event.gst_pad_link _ _ _ => true
  | _ => false

/-- Does the call create a capture stage (factory `videotestsrc`). -/
def Event.is_capture : Event → Bool
  | Event.gst_element_factory_make factory _ _ => factory == "videotestsrc"
  | _ => false

/-- Does the call set a property on element `x`. -/
def Event.configures (x : Elem) : Event → Bool
  | Event.g_object_set obj _ _ => obj == some x
  | _ => false

/-- Does the call request a pad from an element. -/
def Event.is_pad_request : Event → Bool
  | Event.gst_element_get_request_pad _ _ _ => true
  | _ => false

/-- Does the call release a request pad. -/
def Event.is_release : Event → Bool
  | Event.gst_element_release_request_pad _ _ => true
  | _ => false

/-- Does the call ask for the state `s`. -/
def Event.requests_state (s : GstState) : Event → Bool
  | Event.gst_element_set_state _ t _ => t == s
  | _ => false

/-- The value the call gives to the integer property `prop` of `pad`, if it
sets it. -/
def Event.pad_value (pad : Pad) (prop : String) : Event → Option Int
  | Event.g_object_set_pad (some p) q (GValue.int v) =>
    if p = pad ∧ q = prop then some v else none
  | _ => none

/-- The integer property `prop` of `pad` after the calls of `trace`: the last
value set, `dflt` when the trace never sets it. -/
def pad_prop (trace : List Event) (pad : Pad) (prop : String) (dflt : Int) : Int :=
  ((trace.filterMap (Event.pad_value pad prop)).getLast?).getD dflt

/-- An axis-aligned rectangle of the canvas. -/
structure Rect where
  x : Int
  y : Int
  w : Int
  h : Int
  deriving DecidableEq, Repr

/-- Is the pixel `(px, py)` inside the rectangle. -/
def Rect.covers (r : Rect) (px py : Int) : Prop :=
  r.x ≤ px ∧ px < r.x + r.w ∧ r.y ≤ py ∧ py < r.y + r.h

/-- The rectangle input `i` of the compositor occupies after the calls of
`trace`: its offset is the `xpos`/`ypos` of compositor pad `sink_i` (the offset
`(dx, dy)` when never set), its size is the frame size every source is filtered
to by `link_elements_with_filter`. -/
def placed_rect (trace : List Event) (dx dy : Int) (i : Nat) : Rect :=
  { x := pad_prop trace (Pad.static Elem.mixer ("sink_" ++ toString i)) "xpos" dx
    y := pad_prop trace (Pad.static Elem.mixer ("sink_" ++ toString i)) "ypos" dy
    w := filter_caps.width
    h := filter_caps.height }

/-- The smallest rectangle containing both. -/
def Rect.join (a b : Rect) : Rect :=
  { x := min a.x b.x
    y := min a.y b.y
    w := max (a.x + a.w) (b.x + b.w) - min a.x b.x
    h := max (a.y + a.h) (b.y + b.h) - min a.y b.y }

/-- The bounding box of a list of rectangles. -/
def bounding_box : List Rect → Option Rect
  | [] => none
  | r :: rs => some (rs.foldl Rect.join r)

/-! ## Concrete environments -/

/-- A fault reported by the network sink, without debug detail. -/
def rtmp_fault : BusMessage :=
  BusMessage.error "rtmpsink" "Could not connect to RTMP stream" none

/-- An environment in which the endpoint is given and every library call
succeeds; the bus dispatches `bus`. -/
def env_all_ok (bus : List BusMessage) : Env :=
  { parse_ok := true
    parse_error := ""
    rtmplink := some "rtmp://live.example.net/app/key"
    make_ok := fun _ => true
    link_filtered_ok := fun _ _ => true
    link_ok := fun _ _ => true
    link_many_ok := fun _ => true
    pad_link_ok := fun _ _ => true
    set_state_ret := fun _ => GstStateChangeReturn.SUCCESS
    bus := bus }

/-- The endpoint option is not given. -/
def env_no_rtmplink : Env :=
  { env_all_ok [] with rtmplink := none }

/-- Everything succeeds and then the network sink reports a fault. -/
def env_fault : Env :=
  env_all_ok [BusMessage.other "state-changed", rtmp_fault]

/-- The filtered link of source 0 to its overlay fails. -/
def env_filter_link_fails : Env :=
  { env_all_ok [] with
    link_filtered_ok := fun a _ => a != some (Elem.videosource 0) }

/-- The link of overlay 0 into the compositor fails. -/
def env_overlay_link_fails : Env :=
  { env_all_ok [] with
    link_ok := fun a _ => a != some (Elem.timeoverlay 0) }

/-- The factory returns NULL for `network_queue` alone; a chain that starts at
a NULL element does not link. -/
def env_no_network_queue : Env :=
  { env_all_ok [] with
    make_ok := fun e => e != Elem.network_queue
    link_many_ok := fun c => !c.contains none }

/-- The factory returns NULL for `x264enc` alone. -/
def env_no_x264enc : Env :=
  { env_all_ok [] with
    make_ok := fun e => e != Elem.x264enc
    link_many_ok := fun c => !c.contains none }

/-- The tee pads cannot be linked to the queues. -/
def env_tee_link_fails : Env :=
  { env_all_ok [] with pad_link_ok := fun _ _ => false }

/-- The request to play reports failure, and the failing sink posts its fault. -/
def env_play_fails : Env :=
  { env_all_ok [rtmp_fault] with
    set_state_ret := fun s =>
      match s with
      | GstState.GST_STATE_PLAYING => GstStateChangeReturn.FAILURE
      | GstState.GST_STATE_NULL => GstStateChangeReturn.SUCCESS }

/-! ## Structure of a run -/

@[simp] theorem Run.after_trace (pre : List Event) (r : Run) :
    (Run.after pre r).trace = pre ++ r.trace := rfl

@[simp] theorem Run.after_outcome (pre : List Event) (r : Run) :
    (Run.after pre r).outcome = r.outcome := rfl

theorem Run.after_after (p q : List Event) (r : Run) :
    Run.after p (Run.after q r) = Run.after (p ++ q) r := by
  simp [Run.after]

theorem range_three : List.range 3 = [0, 1, 2] := by decide

theorem Event.building_startup {e : Event} (h : e.building = true) : e.startup = true := by
  unfold Event.building at h
  simp only [Bool.and_eq_true] at h
  exact h.1

theorem Shape.after {env : Env} {r : Run} (pre : List Event)
    (hpre : ∀ e ∈ pre, e.building = true) (h : Shape env r) : Shape env (Run.after pre r) := by
  rcases h with ⟨c, hc, ho, ht⟩ | ⟨q, hq, h1, h2, h3, hr⟩
  · left
    refine ⟨c, hc, by simpa using ho, ?_⟩
    intro e he
    rcases List.mem_append.1 (by simpa using he) with h | h
    · exact Event.building_startup (hpre e h)
    · exact ht e h
  · right
    refine ⟨pre ++ q, ?_, h1, h2, h3, ?_⟩
    · intro e he
      rcases List.mem_append.1 he with h | h
      · exact hpre e h
      · exact hq e h
    · rw [hr, Run.after_after]

theorem Shape.fail {env : Env} (t : List Event) (c : Int) (hc : c ≠ 0)
    (ht : ∀ e ∈ t, e.startup = true) : Shape env ⟨t, Outcome.returned c⟩ :=
  Or.inl ⟨c, hc, rfl, ht⟩

theorem link_elements_with_filter_startup (env : Env) (a b : Option Elem) :
    ∀ e ∈ (link_elements_with_filter env a b).1, e.building = true := by
  intro e he
  unfold link_elements_with_filter at he
  cases h : env.link_filtered_ok a b <;> simp [h] at he <;>
    rcases he with rfl | rfl | rfl | rfl <;> rfl


theorem main_tee_shape (env : Env) (hp : make env Elem.pipeline = some Elem.pipeline)
    (hm : make env Elem.mixer = some Elem.mixer) (ht : make env Elem.tee = some Elem.tee) :
    Shape env (main_tee env (main_data env)) := by
  unfold main_tee
  simp only [main_data, ht, request_pad, Option.map_some']
  split
  · exact Shape.after _ (by simp [Event.building, Event.startup, Event.is_unref]) (Shape.fail _ _ (by decide) (by simp [Event.building, Event.startup, Event.is_unref]))
  · split
    · exact Shape.after _ (by simp [Event.building, Event.startup, Event.is_unref])
        (Shape.fail _ _ (by decide) (by simp [Event.building, Event.startup, Event.is_unref]))
    · exact Shape.after _ (by simp [Event.building, Event.startup, Event.is_unref])
        (Or.inr ⟨[], by simp, hp, hm, ht, by simp [Run.after, main_data, ht]⟩)

theorem main_chains_shape (env : Env) (hp : make env Elem.pipeline = some Elem.pipeline)
    (hm : make env Elem.mixer = some Elem.mixer) (ht : make env Elem.tee = some Elem.tee) :
    Shape env (main_chains env (main_data env)) := by
  unfold main_chains
  simp only []
  split
  · exact Shape.after _ (by simp [Event.building, Event.startup, Event.is_unref]) (Shape.fail _ _ (by decide) (by simp [Event.building, Event.startup, Event.is_unref]))
  · split
    · exact Shape.after _ (by simp [Event.building, Event.startup, Event.is_unref])
        (Shape.fail _ _ (by decide) (by simp [Event.building, Event.startup, Event.is_unref]))
    · split
      · exact Shape.after _ (by simp [Event.building, Event.startup, Event.is_unref])
          (Shape.fail _ _ (by decide) (by simp [Event.building, Event.startup, Event.is_unref]))
      · exact Shape.after _ (by simp [Event.building, Event.startup, Event.is_unref]) (main_tee_shape env hp hm ht)

theorem main_link_sources_shape (env : Env) (data : CustomData) (k : Run) (hk : Shape env k)
    (l : List Nat) : Shape env (main_link_sources env data k l) := by
  induction l with
  | nil => exact hk
  | cons i rest ih =>
    unfold main_link_sources
    simp only []
    have hf := link_elements_with_filter_startup env (data.videosource i) (data.timeoverlay i)
    split
    · refine Shape.after _ ?_ (Shape.fail _ _ (by decide) (by simp [Event.building, Event.startup, Event.is_unref]))
      intro e he
      rcases List.mem_append.1 he with h | h
      · simp at h; subst h; rfl
      · exact hf e h
    · have hpre : ∀ e ∈ [Event.gst_bin_add_many data.pipeline
            (varargs [data.videosource i, data.timeoverlay i])] ++
          (link_elements_with_filter env (data.videosource i) (data.timeoverlay i)).1 ++
          [Event.gst_element_link (data.timeoverlay i) data.mixer
            (env.link_ok (data.timeoverlay i) data.mixer)], e.building = true := by
        intro e he
        simp only [List.mem_append, List.mem_singleton] at he
        rcases he with (h | h) | h
        · subst h; rfl
        · exact hf e h
        · subst h; rfl
      split
      · exact Shape.after _ hpre (Shape.fail _ _ (by decide) (by simp [Event.building, Event.startup, Event.is_unref]))
      · exact Shape.after _ hpre ih

theorem main_check_filters_shape (env : Env) (data : CustomData) (k : Run) (hk : Shape env k)
    (l : List Nat) : Shape env (main_check_filters data k l) := by
  induction l with
  | nil => exact hk
  | cons i rest ih =>
    unfold main_check_filters
    split
    · exact Shape.fail _ _ (by decide) (by simp [Event.building, Event.startup, Event.is_unref])
    · exact ih

theorem main_check_shape (env : Env) : Shape env (main_check env (main_data env)) := by
  unfold main_check
  split
  · exact Shape.fail _ _ (by decide) (by simp [Event.building, Event.startup, Event.is_unref])
  · rename_i h
    simp only [Bool.or_eq_true, not_or, Bool.not_eq_true, Option.isNone_eq_false_iff,
      Option.isSome_iff_exists] at h
    have hp : make env Elem.pipeline = some Elem.pipeline := by
      have := h.1.1.1.1.1.1.1.1
      simp only [main_data, make] at this ⊢
      split at this <;> simp_all
    have hm : make env Elem.mixer = some Elem.mixer := by
      have := h.1.1.1.1.1.1.1.2
      simp only [main_data, make] at this ⊢
      split at this <;> simp_all
    have ht : make env Elem.tee = some Elem.tee := by
      have := h.1.1.1.1.1.1.2
      simp only [main_data, make] at this ⊢
      split at this <;> simp_all
    exact main_check_filters_shape env _ _
      (Shape.after _ (by simp [Event.building, Event.startup, Event.is_unref])
        (main_link_sources_shape env _ _ (main_chains_shape env hp hm ht) _)) _

theorem main_create_sources_startup (env : Env) (l : List Nat) :
    ∀ e ∈ main_create_sources env l, e.building = true := by
  induction l with
  | nil => simp [main_create_sources]
  | cons i rest ih =>
    intro e he
    simp only [main_create_sources, List.mem_append, List.mem_cons, List.mem_singleton,
      List.not_mem_nil, or_false] at he
    rcases he with (h | h | h) | h
    · subst h; rfl
    · subst h; rfl
    · subst h; rfl
    · exact ih e h

theorem main_create_trace_startup (env : Env) (rtmplink : String) :
    ∀ e ∈ main_create_trace env rtmplink, e.building = true := by
  intro e he
  simp only [main_create_trace, List.mem_append, List.mem_cons, List.mem_singleton,
    List.not_mem_nil, or_false] at he
  rcases he with (h | h) | h
  · subst h; rfl
  · exact main_create_sources_startup env _ e h
  · rcases h with h | h | h | h | h | h | h | h | h | h | h | h | h | h | h | h | h | h | h | h | h <;>
      (subst h; rfl)

/-- Every run of `main` has one of the two shapes. -/
theorem main_shape (env : Env) : Shape env (main env) := by
  unfold main
  split
  · exact Shape.fail _ _ (by decide) (by simp [Event.building, Event.startup, Event.is_unref, main_options])
  · split
    · exact Shape.fail _ _ (by decide) (by simp [Event.building, Event.startup, Event.is_unref, main_options])
    · refine Shape.after _ ?_ (main_check_shape env)
      intro e he
      simp only [List.mem_append] at he
      rcases he with (h | h) | h
      · revert h; simp [main_options]; rintro (h | h | h | h | h) <;> (subst h; rfl)
      · simp at h; subst h; rfl
      · exact main_create_trace_startup env _ e h


/-! ## The dispatch loop -/

theorem error_cb_quits (s m : String) (d : Option String) :
    Event.g_main_loop_quit ∈ error_cb s m d := by
  simp [error_cb]

theorem g_main_loop_run_first_error (before rest : List BusMessage) (s m : String)
    (d : Option String) (h : before.all (fun x => !x.is_error) = true) :
    g_main_loop_run (before ++ BusMessage.error s m d :: rest) = (error_cb s m d, true) := by
  induction before with
  | nil => simp [g_main_loop_run]
  | cons x xs ih =>
    cases x with
    | error a b c => simp [BusMessage.is_error] at h
    | other k =>
      simp only [List.all_cons, Bool.and_eq_true] at h
      simpa [g_main_loop_run] using ih h.2

theorem g_main_loop_run_no_error (bus : List BusMessage)
    (h : bus.any BusMessage.is_error = false) : g_main_loop_run bus = ([], false) := by
  induction bus with
  | nil => rfl
  | cons x xs ih =>
    cases x with
    | error a b c => simp [BusMessage.is_error] at h
    | other k =>
      simp only [List.any_cons, Bool.or_eq_false_iff] at h
      simpa [g_main_loop_run] using ih h.2

theorem g_main_loop_run_some_error (bus : List BusMessage)
    (h : bus.any BusMessage.is_error = true) :
    ∃ s m d, g_main_loop_run bus = (error_cb s m d, true) := by
  induction bus with
  | nil => simp at h
  | cons x xs ih =>
    cases x with
    | error a b c => exact ⟨a, b, c, rfl⟩
    | other k =>
      simp only [List.any_cons, BusMessage.is_error, Bool.false_or] at h
      simpa [g_main_loop_run] using ih h

/-- A run that enters the loop went through construction, with building calls
only. -/
theorem main_reaches_loop_building (env : Env)
    (h : ∃ e ∈ (main env).trace, e.startup = false) :
    ∃ pre : List Event, (∀ e ∈ pre, e.building = true) ∧
      make env Elem.pipeline = some Elem.pipeline ∧
      make env Elem.mixer = some Elem.mixer ∧
      make env Elem.tee = some Elem.tee ∧
      main env = Run.after pre (main_play env (main_data env)
        (some (Pad.request Elem.tee 0)) (some (Pad.request Elem.tee 1))
        (static_pad (make env Elem.playback_queue) "sink")
        (static_pad (make env Elem.network_queue) "sink")) := by
  rcases main_shape env with ⟨c, _, _, ht⟩ | h2
  · obtain ⟨e, he, hs⟩ := h
    rw [ht e he] at hs
    exact absurd hs (by decide)
  · exact h2

/-- A run that enters the loop went through construction. -/
theorem main_reaches_loop (env : Env) (h : ∃ e ∈ (main env).trace, e.startup = false) :
    ∃ pre : List Event, (∀ e ∈ pre, e.startup = true) ∧
      make env Elem.pipeline = some Elem.pipeline ∧
      make env Elem.mixer = some Elem.mixer ∧
      make env Elem.tee = some Elem.tee ∧
      main env = Run.after pre (main_play env (main_data env)
        (some (Pad.request Elem.tee 0)) (some (Pad.request Elem.tee 1))
        (static_pad (make env Elem.playback_queue) "sink")
        (static_pad (make env Elem.network_queue) "sink")) := by
  obtain ⟨pre, hpre, h1, h2, h3, h4⟩ := main_reaches_loop_building env h
  exact ⟨pre, fun e he => Event.building_startup (hpre e he), h1, h2, h3, h4⟩

/-! ## The claims -/

/-- C1, as stated, fails: on a command line that parses but gives no
rtmplink, main returns -1, yet by then the framework has been initialised: main
added the GStreamer option group to the context it parsed successfully. -/
theorem framework_initialised_without_rtmplink :
    env_no_rtmplink.parse_ok = true ∧ env_no_rtmplink.rtmplink = none ∧
    (main env_no_rtmplink).outcome = Outcome.returned (-1) ∧
    framework_initialised (main env_no_rtmplink).trace = true := by
  decide

/-- C1, amended: when option parsing succeeds and no rtmplink was given, main
returns the non-zero status -1 having made no element factory call and no
`gst_pipeline_new` call, and without reaching its own `gst_init` call: the trace
is the option handling and the message alone.  The framework is nevertheless
initialised by then, through the successful parse of the GStreamer option
group. -/
theorem main_without_rtmplink (env : Env) (hparse : env.parse_ok = true)
    (hlink : env.rtmplink = none) :
    (main env).outcome = Outcome.returned (-1) ∧ (-1 : Int) ≠ 0 ∧
    Event.gst_init ∉ (main env).trace ∧
    (∀ f n r, Event.gst_element_factory_make f n r ∉ (main env).trace) ∧
    (∀ n r, Event.gst_pipeline_new n r ∉ (main env).trace) ∧
    (main env).trace = main_options env ++
      [Event.g_option_context_free, Event.g_printerr "Please specify rtmp link to publish\n"] ∧
    framework_initialised (main env).trace = true := by
  simp [main, hparse, hlink, main_options, framework_initialised, framework_initialised_from]

theorem main_without_rtmplink_witness :
    env_no_rtmplink.parse_ok = true ∧ env_no_rtmplink.rtmplink = none ∧
    (main env_no_rtmplink).outcome = Outcome.returned (-1) ∧
    Event.gst_init ∉ (main env_no_rtmplink).trace ∧
    framework_initialised (main env_no_rtmplink).trace = true :=
  ⟨rfl, rfl, (main_without_rtmplink env_no_rtmplink rfl rfl).1,
    (main_without_rtmplink env_no_rtmplink rfl rfl).2.2.1,
    (main_without_rtmplink env_no_rtmplink rfl rfl).2.2.2.2.2.2⟩

/-- C2, as stated, fails: in the run where everything is built, the pipeline is
asked to play and the network sink then reports a fault to `error_cb`, `main`
returns 0. -/
theorem fault_run_returns_zero :
    Event.gst_element_set_state (some Elem.pipeline) GstState.GST_STATE_PLAYING
      GstStateChangeReturn.SUCCESS ∈ (main env_fault).trace ∧
    Event.g_printerr "Error received from element rtmpsink: Could not connect to RTMP stream\n"
      ∈ (main env_fault).trace ∧
    Event.g_main_loop_quit ∈ (main env_fault).trace ∧
    (main env_fault).outcome = Outcome.returned 0 := by
  decide


theorem main_play_trace (env : Env) (data : CustomData) (a b c d : Option Pad) :
    (main_play env data a b c d).trace =
      main_start env data c d ++ (g_main_loop_run env.bus).1 ++
        (if (g_main_loop_run env.bus).2 then (main_teardown env data a b).trace else []) := by
  unfold main_play
  simp only []
  split <;> simp

theorem main_play_outcome (env : Env) (data : CustomData) (a b c d : Option Pad) :
    (main_play env data a b c d).outcome =
      if (g_main_loop_run env.bus).2 then Outcome.returned 0 else Outcome.blocked := by
  unfold main_play
  simp only []
  split <;> simp [main_teardown]

theorem loop_entered_not_startup (env : Env) (h : Event.g_main_loop_run ∈ (main env).trace) :
    ∃ e ∈ (main env).trace, e.startup = false :=
  ⟨_, h, rfl⟩

/-- C2, amended: in every run of main that gets as far as the dispatch loop,
main returns 0 exactly when a fault was delivered to `error_cb` (the only
request to quit the loop); when the bus never delivers a fault the loop does not
end and main does not return.  A fault therefore never yields a non-zero
status, and status 0 never means that no fault was reported. -/
theorem loop_exit_status (env : Env) (hloop : Event.g_main_loop_run ∈ (main env).trace) :
    (main env).outcome =
      (if env.bus.any BusMessage.is_error then Outcome.returned 0 else Outcome.blocked) ∧
    (Event.g_main_loop_quit ∈ (main env).trace ↔ env.bus.any BusMessage.is_error = true) := by
  obtain ⟨pre, hpre, hp, hm, ht, hmain⟩ := main_reaches_loop env (loop_entered_not_startup env hloop)
  have hq : Event.g_main_loop_quit ∉ pre := fun h => absurd (hpre _ h) (by decide)
  rw [hmain]
  simp only [Run.after_outcome, Run.after_trace, main_play_outcome, main_play_trace]
  cases hb : env.bus.any BusMessage.is_error
  · rw [g_main_loop_run_no_error env.bus hb]
    simp [hq, main_start]
  · obtain ⟨s, m, d, hrun⟩ := g_main_loop_run_some_error env.bus hb
    rw [hrun]
    simp [error_cb]

theorem loop_exit_status_witness :
    Event.g_main_loop_run ∈ (main env_fault).trace ∧
    (main env_fault).outcome = Outcome.returned 0 :=
  ⟨by decide, (loop_exit_status env_fault (by decide)).1⟩

theorem error_cb_no_state_request (s m : String) (d : Option String) (st : GstState) :
    ∀ e ∈ error_cb s m d, e.requests_state st = false := by
  simp [error_cb, Event.requests_state]

/-- C7: a fault delivered to `error_cb` while the loop runs, whatever its
origin, message and debug detail (absent detail included), makes the handler
request the loop to quit as its last call; and in every run of main that
entered the loop, once the first fault on the bus has been handled the rest of
the run sets the pipeline to the NULL state and never asks for Playing again. -/
theorem fault_quits_loop_and_stops_graph (env : Env) (before rest : List BusMessage)
    (src message : String) (debug_info : Option String)
    (hloop : Event.g_main_loop_run ∈ (main env).trace)
    (hbus : env.bus = before ++ BusMessage.error src message debug_info :: rest)
    (hfirst : before.all (fun x => !x.is_error) = true) :
    (error_cb src message debug_info).getLast? = some Event.g_main_loop_quit ∧
    ∃ pre post : List Event,
      (main env).trace = pre ++ error_cb src message debug_info ++ post ∧
      Event.g_main_loop_quit ∉ pre ∧
      Event.gst_element_set_state (some Elem.pipeline) GstState.GST_STATE_NULL
        (env.set_state_ret GstState.GST_STATE_NULL) ∈ post ∧
      (∀ e ∈ post, e.requests_state GstState.GST_STATE_PLAYING = false) := by
  refine ⟨by simp [error_cb], ?_⟩
  obtain ⟨pre, hpre, hp, hm, ht, hmain⟩ := main_reaches_loop env (loop_entered_not_startup env hloop)
  have hrun := g_main_loop_run_first_error before rest src message debug_info hfirst
  rw [← hbus] at hrun
  refine ⟨pre ++ main_start env (main_data env)
      (static_pad (make env Elem.playback_queue) "sink")
      (static_pad (make env Elem.network_queue) "sink"),
    (main_teardown env (main_data env) (some (Pad.request Elem.tee 0))
      (some (Pad.request Elem.tee 1))).trace, ?_, ?_, ?_, ?_⟩
  · rw [hmain]
    simp [main_play_trace, hrun]
  · intro h
    rcases List.mem_append.1 h with h | h
    · exact absurd (hpre _ h) (by decide)
    · simp [main_start] at h
  · have : (main_data env).pipeline = some Elem.pipeline := hp
    simp [main_teardown, this]
  · simp [main_teardown, Event.requests_state]

theorem fault_quits_loop_and_stops_graph_witness :
    Event.g_main_loop_run ∈ (main env_fault).trace ∧
    (error_cb "rtmpsink" "Could not connect to RTMP stream" none).getLast?
      = some Event.g_main_loop_quit ∧
    ∃ pre post : List Event,
      (main env_fault).trace
        = pre ++ error_cb "rtmpsink" "Could not connect to RTMP stream" none ++ post ∧
      Event.g_main_loop_quit ∉ pre ∧
      Event.gst_element_set_state (some Elem.pipeline) GstState.GST_STATE_NULL
        (env_fault.set_state_ret GstState.GST_STATE_NULL) ∈ post ∧
      (∀ e ∈ post, e.requests_state GstState.GST_STATE_PLAYING = false) :=
  ⟨by decide,
    fault_quits_loop_and_stops_graph env_fault [BusMessage.other "state-changed"] []
      "rtmpsink" "Could not connect to RTMP stream" none (by decide) rfl (by decide)⟩

/-- C8, as stated, fails: when the request to play reports FAILURE, the very
next calls of main create and enter the dispatch loop. -/
theorem play_failure_enters_loop :
    [Event.gst_element_set_state (some Elem.pipeline) GstState.GST_STATE_PLAYING
        GstStateChangeReturn.FAILURE,
      Event.g_main_loop_new, Event.g_main_loop_run] <:+: (main env_play_fails).trace := by
  set_option maxRecDepth 20000 in decide

theorem building_not_teardown {e : Event} (h : e.building = true) :
    e.is_release = false ∧ e.requests_state GstState.GST_STATE_NULL = false ∧
      e.is_unref = false := by
  cases e <;>
    simp [Event.building, Event.startup, Event.is_unref, Event.is_release,
      Event.requests_state] at h ⊢

theorem filter_building (l : List Event) (h : ∀ e ∈ l, e.building = true) :
    l.filter Event.is_release = [] ∧
    l.filter (Event.requests_state GstState.GST_STATE_NULL) = [] ∧
    l.filter Event.is_unref = [] := by
  refine ⟨?_, ?_, ?_⟩ <;> rw [List.filter_eq_nil_iff] <;> intro e he
  · simp [(building_not_teardown (h e he)).1]
  · simp [(building_not_teardown (h e he)).2.1]
  · simp [(building_not_teardown (h e he)).2.2]

/-- C8, amended: main does not read the result of the request to play.
Whatever the request reports, failure included, the next two calls create and
enter the dispatch loop.  When the bus never delivers a fault, main stays in the
loop: it does not return, its last call is `g_main_loop_run`, and the run holds
no release of a request pad, no request for the NULL state and no unreferencing
of the pipeline.  When a fault is delivered, main returns 0 and the teardown
calls (both request pads released and unreferenced, the pipeline set to NULL and
unreferenced) come right after the quit request of `error_cb`, and nowhere
before it. -/
theorem play_result_not_read (env : Env) (e : Option Elem) (r : GstStateChangeReturn)
    (h : Event.gst_element_set_state e GstState.GST_STATE_PLAYING r ∈ (main env).trace) :
    r = env.set_state_ret GstState.GST_STATE_PLAYING ∧
    [Event.gst_element_set_state e GstState.GST_STATE_PLAYING r,
      Event.g_main_loop_new, Event.g_main_loop_run] <:+: (main env).trace ∧
    e = some Elem.pipeline ∧
    (main env).outcome =
      (if env.bus.any BusMessage.is_error then Outcome.returned 0 else Outcome.blocked) ∧
    (env.bus.any BusMessage.is_error = false →
      [Event.gst_element_set_state e GstState.GST_STATE_PLAYING r,
        Event.g_main_loop_new, Event.g_main_loop_run] <:+ (main env).trace ∧
      (main env).trace.filter Event.is_release = [] ∧
      (main env).trace.filter (Event.requests_state GstState.GST_STATE_NULL) = [] ∧
      (main env).trace.filter Event.is_unref = []) ∧
    (env.bus.any BusMessage.is_error = true →
      ∃ before : List Event,
        (main env).trace = before ++
          [ Event.g_main_loop_quit,
            Event.gst_element_release_request_pad (some Elem.tee)
              (some (Pad.request Elem.tee 0)),
            Event.gst_element_release_request_pad (some Elem.tee)
              (some (Pad.request Elem.tee 1)),
            Event.gst_object_unref_pad (some (Pad.request Elem.tee 0)),
            Event.gst_object_unref_pad (some (Pad.request Elem.tee 1)),
            Event.gst_element_set_state (some Elem.pipeline) GstState.GST_STATE_NULL
              (env.set_state_ret GstState.GST_STATE_NULL),
            Event.gst_object_unref (some Elem.pipeline) ] ∧
        before.filter Event.is_release = [] ∧
        before.filter (Event.requests_state GstState.GST_STATE_NULL) = [] ∧
        before.filter Event.is_unref = []) := by
  obtain ⟨pre, hpre, hp, hm, ht, hmain⟩ := main_reaches_loop_building env ⟨_, h, rfl⟩
  have hpipe : (main_data env).pipeline = some Elem.pipeline := hp
  have htee : (main_data env).tee = some Elem.tee := ht
  obtain ⟨hf1, hf2, hf3⟩ := filter_building pre hpre
  have hloopfree : Event.gst_element_set_state e GstState.GST_STATE_PLAYING r ∉
      (g_main_loop_run env.bus).1 := by
    cases hb : env.bus.any BusMessage.is_error
    · rw [g_main_loop_run_no_error env.bus hb]; simp
    · obtain ⟨s, m, d, hrun⟩ := g_main_loop_run_some_error env.bus hb
      rw [hrun]; simp [error_cb]
  have htd : Event.gst_element_set_state e GstState.GST_STATE_PLAYING r ∉
      (if (g_main_loop_run env.bus).2 = true then
        (main_teardown env (main_data env) (some (Pad.request Elem.tee 0))
          (some (Pad.request Elem.tee 1))).trace else []) := by
    split <;> simp [main_teardown]
  have hmem := h
  rw [hmain] at hmem
  simp only [Run.after_trace, main_play_trace, List.mem_append] at hmem
  have her : e = some Elem.pipeline ∧ r = env.set_state_ret GstState.GST_STATE_PLAYING := by
    rcases hmem with h | (h | h) | h
    · exact absurd (Event.building_startup (hpre _ h)) (by simp [Event.startup])
    · simp only [main_start, List.mem_cons, List.mem_singleton, List.not_mem_nil, or_false] at h
      simp only [reduceCtorEq, false_or, Event.gst_element_set_state.injEq, true_and,
        or_false] at h
      exact ⟨h.1.trans hpipe, h.2⟩
    · exact absurd h hloopfree
    · exact absurd h htd
  obtain ⟨he, hr⟩ := her
  subst he hr
  refine ⟨rfl, ?_, rfl, ?_, ?_, ?_⟩
  · rw [hmain]
    simp only [Run.after_trace, main_play_trace]
    refine ⟨pre ++ (main_start env (main_data env)
        (static_pad (make env Elem.playback_queue) "sink")
        (static_pad (make env Elem.network_queue) "sink")).take 15,
      (g_main_loop_run env.bus).1 ++
        (if (g_main_loop_run env.bus).2 = true then
          (main_teardown env (main_data env) (some (Pad.request Elem.tee 0))
            (some (Pad.request Elem.tee 1))).trace else []), ?_⟩
    simp [main_start, hpipe]
  · rw [hmain]
    simp only [Run.after_outcome, main_play_outcome]
    cases hb : env.bus.any BusMessage.is_error
    · rw [g_main_loop_run_no_error env.bus hb]
    · obtain ⟨s, m, d, hrun⟩ := g_main_loop_run_some_error env.bus hb
      rw [hrun]
  · intro hb
    rw [hmain]
    simp only [Run.after_trace, main_play_trace, g_main_loop_run_no_error env.bus hb]
    refine ⟨⟨pre ++ (main_start env (main_data env)
        (static_pad (make env Elem.playback_queue) "sink")
        (static_pad (make env Elem.network_queue) "sink")).take 15, ?_⟩, ?_, ?_, ?_⟩
    · simp [main_start, hpipe]
    · simp [List.filter_append, hf1, main_start, Event.is_release]
    · simp [List.filter_append, hf2, main_start, Event.requests_state]
    · simp [List.filter_append, hf3, main_start, Event.is_unref]
  · intro hb
    obtain ⟨s, m, d, hrun⟩ := g_main_loop_run_some_error env.bus hb
    refine ⟨pre ++ main_start env (main_data env)
        (static_pad (make env Elem.playback_queue) "sink")
        (static_pad (make env Elem.network_queue) "sink") ++ (error_cb s m d).take 5,
      ?_, ?_, ?_, ?_⟩
    · rw [hmain]
      simp [main_play_trace, hrun, error_cb, main_teardown, hpipe, htee]
    · simp [List.filter_append, hf1, main_start, error_cb, Event.is_release]
    · simp [List.filter_append, hf2, main_start, error_cb, Event.requests_state]
    · simp [List.filter_append, hf3, main_start, error_cb, Event.is_unref]

theorem play_result_not_read_witness :
    Event.gst_element_set_state (some Elem.pipeline) GstState.GST_STATE_PLAYING
      GstStateChangeReturn.FAILURE ∈ (main env_play_fails).trace ∧
    [Event.gst_element_set_state (some Elem.pipeline) GstState.GST_STATE_PLAYING
        GstStateChangeReturn.FAILURE,
      Event.g_main_loop_new, Event.g_main_loop_run] <:+: (main env_play_fails).trace ∧
    (main env_play_fails).outcome =
      (if env_play_fails.bus.any BusMessage.is_error then Outcome.returned 0
        else Outcome.blocked) :=
  ⟨by decide,
    (play_result_not_read env_play_fails (some Elem.pipeline) GstStateChangeReturn.FAILURE
      (by decide)).2.1,
    (play_result_not_read env_play_fails (some Elem.pipeline) GstStateChangeReturn.FAILURE
      (by decide)).2.2.2.1⟩

/-- C3, the code at a run where everything succeeds: no call sets any property
on `network_queue`; `leaky = 2` and `max-size-buffers = 5` are set twice, both
times on `playback_queue` (source lines 114-115 and again 121-122). -/
theorem network_queue_never_configured :
    (main (env_all_ok [])).trace.filter (Event.configures Elem.network_queue) = [] ∧
    (main (env_all_ok [])).trace.filter (Event.configures Elem.playback_queue) =
      [ Event.g_object_set (some Elem.playback_queue) "leaky" (GValue.int 2),
        Event.g_object_set (some Elem.playback_queue) "max-size-buffers" (GValue.int 5),
        Event.g_object_set (some Elem.playback_queue) "leaky" (GValue.int 2),
        Event.g_object_set (some Elem.playback_queue) "max-size-buffers" (GValue.int 5) ] := by
  set_option maxRecDepth 20000 in decide

/-- C4, the code at a failing filtered link: when the capture 0 to overlay 0
link fails, main returns -1 and never asks for Playing, but the pipeline it
created and filled is not unreferenced; when instead the overlay 0 to
compositor link fails, the pipeline is unreferenced before the return. -/
theorem filtered_link_failure_keeps_pipeline :
    (main env_filter_link_fails).outcome = Outcome.returned (-1) ∧
    Event.gst_pipeline_new "pipeline" (some Elem.pipeline) ∈ (main env_filter_link_fails).trace ∧
    Event.gst_bin_add_many (some Elem.pipeline) [Elem.videosource 0, Elem.timeoverlay 0]
      ∈ (main env_filter_link_fails).trace ∧
    Event.gst_element_link_filtered (some (Elem.videosource 0)) (some (Elem.timeoverlay 0))
      filter_caps false ∈ (main env_filter_link_fails).trace ∧
    (main env_filter_link_fails).trace.filter
      (Event.requests_state GstState.GST_STATE_PLAYING) = [] ∧
    Event.gst_object_unref (some Elem.pipeline) ∉ (main env_filter_link_fails).trace ∧
    (main env_overlay_link_fails).outcome = Outcome.returned (-1) ∧
    (main env_overlay_link_fails).trace.getLast? =
      some (Event.gst_object_unref (some Elem.pipeline)) := by
  set_option maxRecDepth 20000 in decide

/-- C5, the code when only `network_queue` cannot be created: the construction
check lets the run through (its message is not printed), five stages are added
to the pipeline, links are attempted, and main returns -1 only when the publish
chain fails to link; when instead `x264enc` cannot be created the check stops the
run before anything is added or linked. -/
theorem missing_network_queue_passes_check :
    Event.gst_element_factory_make "queue" "network_queue" none
      ∈ (main env_no_network_queue).trace ∧
    Event.g_printerr "Not all elements could be created from pipeline.\n"
      ∉ (main env_no_network_queue).trace ∧
    Event.gst_bin_add_many (some Elem.pipeline)
      [Elem.mixer, Elem.tee, Elem.playback_queue, Elem.playback_sink, Elem.playback_convert]
      ∈ (main env_no_network_queue).trace ∧
    (main env_no_network_queue).trace.filter Event.is_wiring ≠ [] ∧
    (main env_no_network_queue).trace.getLast? =
      some (Event.gst_object_unref (some Elem.pipeline)) ∧
    (main env_no_network_queue).outcome = Outcome.returned (-1) ∧
    (main env_no_x264enc).trace.getLast? =
      some (Event.g_printerr "Not all elements could be created from pipeline.\n") ∧
    (main env_no_x264enc).trace.filter Event.is_wiring = [] ∧
    (main env_no_x264enc).outcome = Outcome.returned (-1) := by
  set_option maxRecDepth 20000 in decide

/-- C6, the code when the tee pads cannot be linked: both request pads have been
obtained from the tee, the pipeline is unreferenced, and no request pad is
released anywhere in the run; on the path through the loop both pads are
released, once each, before the pipeline is stopped and unreferenced. -/
theorem tee_link_failure_leaks_request_pads :
    (main env_tee_link_fails).trace.filter Event.is_pad_request =
      [ Event.gst_element_get_request_pad (some Elem.tee) "src_%u"
          (some (Pad.request Elem.tee 0)),
        Event.gst_element_get_request_pad (some Elem.tee) "src_%u"
          (some (Pad.request Elem.tee 1)) ] ∧
    (main env_tee_link_fails).trace.getLast? =
      some (Event.gst_object_unref (some Elem.pipeline)) ∧
    (main env_tee_link_fails).trace.filter Event.is_release = [] ∧
    (main env_tee_link_fails).outcome = Outcome.returned (-1) ∧
    [ Event.gst_element_release_request_pad (some Elem.tee) (some (Pad.request Elem.tee 0)),
      Event.gst_element_release_request_pad (some Elem.tee) (some (Pad.request Elem.tee 1)),
      Event.gst_object_unref_pad (some (Pad.request Elem.tee 0)),
      Event.gst_object_unref_pad (some (Pad.request Elem.tee 1)),
      Event.gst_element_set_state (some Elem.pipeline) GstState.GST_STATE_NULL
        GstStateChangeReturn.SUCCESS,
      Event.gst_object_unref (some Elem.pipeline) ] <:+ (main env_fault).trace ∧
    (main env_fault).trace.filter Event.is_release =
      [ Event.gst_element_release_request_pad (some Elem.tee) (some (Pad.request Elem.tee 0)),
        Event.gst_element_release_request_pad (some Elem.tee) (some (Pad.request Elem.tee 1)) ] := by
  set_option maxRecDepth 20000 in decide

theorem g_main_loop_run_calls (bus : List BusMessage) :
    (g_main_loop_run bus).1 = [] ∨ ∃ s m d, (g_main_loop_run bus).1 = error_cb s m d := by
  cases hb : bus.any BusMessage.is_error
  · left; rw [g_main_loop_run_no_error bus hb]
  · right
    obtain ⟨s, m, d, h⟩ := g_main_loop_run_some_error bus hb
    exact ⟨s, m, d, by rw [h]⟩

theorem filter_loop_calls (p : Event → Bool) (bus : List BusMessage)
    (hp : ∀ s m d, (error_cb s m d).filter p = []) :
    (g_main_loop_run bus).1.filter p = [] := by
  rcases g_main_loop_run_calls bus with h | ⟨s, m, d, h⟩
  · rw [h]; rfl
  · rw [h]; exact hp s m d

theorem filter_loop_wiring (bus : List BusMessage) :
    (g_main_loop_run bus).1.filter Event.is_wiring = [] :=
  filter_loop_calls _ bus (by intro s m d; simp [error_cb, Event.is_wiring])

theorem filter_loop_capture (bus : List BusMessage) :
    (g_main_loop_run bus).1.filter Event.is_capture = [] :=
  filter_loop_calls _ bus (by intro s m d; simp [error_cb, Event.is_capture])

theorem filter_loop_configures (x : Elem) (bus : List BusMessage) :
    (g_main_loop_run bus).1.filter (Event.configures x) = [] :=
  filter_loop_calls _ bus (by intro s m d; simp [error_cb, Event.configures])

/-- C9: when the endpoint is given and every creation and link succeeds, the
graph main wires is the scenario graph.  Exactly three capture stages are
created.  The wiring calls are, in order: for each source 0, 1, 2 the
capture to overlay link under the one contract `filter_caps` (I420, 640 by 360,
30/1) followed by the link of that overlay into the compositor; the compositor
to junction link; the publish chain and the local-render chain; two pad
requests on the junction; the link of the first to the playback queue and of the
second to the network queue.  The encoder gets bitrate 3000 and key-int-max 15. -/
theorem scenario_graph (env : Env) (url : String) (hparse : env.parse_ok = true)
    (hlink : env.rtmplink = some url) (hmake : ∀ e, env.make_ok e = true)
    (hfilt : ∀ a b, env.link_filtered_ok a b = true) (hl : ∀ a b, env.link_ok a b = true)
    (hmany : ∀ c, env.link_many_ok c = true) (hpad : ∀ a b, env.pad_link_ok a b = true) :
    filter_caps = ⟨"video/x-raw", "I420", 640, 360, 30, 1⟩ ∧
    (main env).trace.filter Event.is_capture =
      [ Event.gst_element_factory_make "videotestsrc" "videotestsrc0" (some (Elem.videosource 0)),
        Event.gst_element_factory_make "videotestsrc" "videotestsrc1" (some (Elem.videosource 1)),
        Event.gst_element_factory_make "videotestsrc" "videotestsrc2" (some (Elem.videosource 2)) ] ∧
    (main env).trace.filter Event.is_wiring =
      [ Event.gst_element_link_filtered (some (Elem.videosource 0)) (some (Elem.timeoverlay 0))
          filter_caps true,
        Event.gst_element_link (some (Elem.timeoverlay 0)) (some Elem.mixer) true,
        Event.gst_element_link_filtered (some (Elem.videosource 1)) (some (Elem.timeoverlay 1))
          filter_caps true,
        Event.gst_element_link (some (Elem.timeoverlay 1)) (some Elem.mixer) true,
        Event.gst_element_link_filtered (some (Elem.videosource 2)) (some (Elem.timeoverlay 2))
          filter_caps true,
        Event.gst_element_link (some (Elem.timeoverlay 2)) (some Elem.mixer) true,
        Event.gst_element_link_many [some Elem.mixer, some Elem.tee] true,
        Event.gst_element_link_many
          [some Elem.network_queue, some Elem.x264enc, some Elem.flvmux, some Elem.rtmpsink] true,
        Event.gst_element_link_many
          [some Elem.playback_queue, some Elem.playback_convert, some Elem.playback_sink] true,
        Event.gst_element_get_request_pad (some Elem.tee) "src_%u" (some (Pad.request Elem.tee 0)),
        Event.gst_element_get_request_pad (some Elem.tee) "src_%u" (some (Pad.request Elem.tee 1)),
        Event.gst_pad_link (some (Pad.request Elem.tee 0))
          (some (Pad.static Elem.playback_queue "sink")) true,
        Event.gst_pad_link (some (Pad.request Elem.tee 1))
          (some (Pad.static Elem.network_queue "sink")) true ] ∧
    (main env).trace.filter (Event.configures Elem.x264enc) =
      [ Event.g_object_set (some Elem.x264enc) "key-int-max" (GValue.int 15),
        Event.g_object_set (some Elem.x264enc) "bitrate" (GValue.int 3000),
        Event.g_object_set (some Elem.x264enc) "speed-preset" (GValue.int 1),
        Event.g_object_set (some Elem.x264enc) "tune" (GValue.int 4) ] := by
  refine ⟨rfl, ?_, ?_, ?_⟩
  · simp [main, hparse, hlink, main_check, main_data, make, hmake, range_three,
      main_check_filters, main_link_sources, link_elements_with_filter, hfilt, hl, hmany, hpad,
      main_chains, main_tee, main_play_trace, varargs, request_pad, static_pad,
      main_create_trace, main_create_sources, main_options, main_start, main_teardown,
      List.filter_cons, Event.is_capture, filter_loop_capture]
    refine ⟨by decide, by decide, by decide, ?_⟩
    intro a _ h
    rcases h with rfl | rfl | rfl | rfl | rfl | rfl <;> rfl
  · simp [main, hparse, hlink, main_check, main_data, make, hmake, range_three,
      main_check_filters, main_link_sources, link_elements_with_filter, hfilt, hl, hmany, hpad,
      main_chains, main_tee, main_play_trace, varargs, request_pad, static_pad,
      main_create_trace, main_create_sources, main_options, main_start, main_teardown,
      List.filter_cons, Event.is_wiring, filter_loop_wiring]
    intro a _ h
    rcases h with rfl | rfl | rfl | rfl | rfl | rfl <;> rfl
  · simp [main, hparse, hlink, main_check, main_data, make, hmake, range_three,
      main_check_filters, main_link_sources, link_elements_with_filter, hfilt, hl, hmany, hpad,
      main_chains, main_tee, main_play_trace, varargs, request_pad, static_pad,
      main_create_trace, main_create_sources, main_options, main_start, main_teardown,
      List.filter_cons, Event.configures, filter_loop_configures]
    intro a _ h
    rcases h with rfl | rfl | rfl | rfl | rfl | rfl <;> rfl

theorem scenario_graph_witness :
    (env_all_ok []).parse_ok = true ∧
    (main (env_all_ok [])).trace.filter Event.is_capture =
      [ Event.gst_element_factory_make "videotestsrc" "videotestsrc0" (some (Elem.videosource 0)),
        Event.gst_element_factory_make "videotestsrc" "videotestsrc1" (some (Elem.videosource 1)),
        Event.gst_element_factory_make "videotestsrc" "videotestsrc2" (some (Elem.videosource 2)) ] :=
  ⟨rfl, (scenario_graph (env_all_ok []) "rtmp://live.example.net/app/key" rfl rfl
    (fun _ => rfl) (fun _ _ => rfl) (fun _ _ => rfl) (fun _ => rfl) (fun _ _ => rfl)).2.1⟩

theorem pad_value_startup (pad : Pad) (prop : String) (e : Event) (h : e.startup = true) :
    e.pad_value pad prop = none := by
  cases e <;> simp [Event.startup] at h <;> rfl

theorem filterMap_pad_value_startup (pad : Pad) (prop : String) (l : List Event)
    (h : ∀ e ∈ l, e.startup = true) : l.filterMap (Event.pad_value pad prop) = [] := by
  rw [List.filterMap_eq_nil_iff]
  intro e he
  exact pad_value_startup pad prop e (h e he)

theorem filterMap_pad_value_loop (pad : Pad) (prop : String) (bus : List BusMessage) :
    (g_main_loop_run bus).1.filterMap (Event.pad_value pad prop) = [] := by
  rcases g_main_loop_run_calls bus with h | ⟨s, m, d, h⟩
  · rw [h]; rfl
  · rw [h]; simp [error_cb, Event.pad_value]

theorem filterMap_pad_value_teardown (pad : Pad) (prop : String) (env : Env)
    (data : CustomData) (a b : Option Pad) :
    (main_teardown env data a b).trace.filterMap (Event.pad_value pad prop) = [] := by
  simp [main_teardown, Event.pad_value]

/-- The value of a compositor pad property in a run that entered the loop is
the value it has after `main_start`. -/
theorem pad_prop_main (env : Env) (hloop : Event.g_main_loop_run ∈ (main env).trace)
    (pad : Pad) (prop : String) (dflt : Int) :
    pad_prop (main env).trace pad prop dflt =
      pad_prop (main_start env { main_data env with mixer := some Elem.mixer } none none)
        pad prop dflt := by
  obtain ⟨pre, hpre, hp, hm, ht, hmain⟩ := main_reaches_loop env (loop_entered_not_startup env hloop)
  have hmix : (main_data env).mixer = some Elem.mixer := hm
  rw [hmain]
  unfold pad_prop
  simp only [Run.after_trace, main_play_trace, List.filterMap_append,
    filterMap_pad_value_startup pad prop pre hpre, filterMap_pad_value_loop, List.nil_append,
    List.append_nil]
  have htd : (if (g_main_loop_run env.bus).2 = true then
      (main_teardown env (main_data env) (some (Pad.request Elem.tee 0))
        (some (Pad.request Elem.tee 1))).trace else []).filterMap (Event.pad_value pad prop)
      = [] := by
    split
    · exact filterMap_pad_value_teardown _ _ _ _ _ _
    · rfl
  rw [htd, List.append_nil]
  simp [main_start, hmix, Event.pad_value, List.filterMap_cons]

/-- C10: in every run that gets to the loop, with compositor input 0 left at
the default offset (0,0), the three inputs occupy the rectangles
(0,0,640,360), (640,0,640,360) and (360,360,640,360); no pixel is covered by
two of them; their bounding box is 1280 by 720 at origin (0,0); input 1 has an x
offset and input 2 a y offset not smaller than the frame size in that axis. -/
theorem placements_disjoint (env : Env) (hloop : Event.g_main_loop_run ∈ (main env).trace) :
    placed_rect (main env).trace 0 0 0 = ⟨0, 0, 640, 360⟩ ∧
    placed_rect (main env).trace 0 0 1 = ⟨640, 0, 640, 360⟩ ∧
    placed_rect (main env).trace 0 0 2 = ⟨360, 360, 640, 360⟩ ∧
    (∀ i j : Nat, i < 3 → j < 3 → i ≠ j → ∀ px py : Int,
      ¬ ((placed_rect (main env).trace 0 0 i).covers px py ∧
         (placed_rect (main env).trace 0 0 j).covers px py)) ∧
    bounding_box [placed_rect (main env).trace 0 0 0, placed_rect (main env).trace 0 0 1,
      placed_rect (main env).trace 0 0 2] = some ⟨0, 0, 1280, 720⟩ ∧
    filter_caps.width ≤ (placed_rect (main env).trace 0 0 1).x ∧
    filter_caps.height ≤ (placed_rect (main env).trace 0 0 2).y := by
  have h0 : placed_rect (main env).trace 0 0 0 = ⟨0, 0, 640, 360⟩ := by
    have hs : "sink_" ++ toString 0 = "sink_0" := by decide
    simp only [placed_rect, hs, pad_prop_main env hloop]
    simp [pad_prop, main_start, static_pad, Event.pad_value, filter_caps]
  have h1 : placed_rect (main env).trace 0 0 1 = ⟨640, 0, 640, 360⟩ := by
    have hs : "sink_" ++ toString 1 = "sink_1" := by decide
    simp only [placed_rect, hs, pad_prop_main env hloop]
    simp [pad_prop, main_start, static_pad, Event.pad_value, filter_caps]
  have h2 : placed_rect (main env).trace 0 0 2 = ⟨360, 360, 640, 360⟩ := by
    have hs : "sink_" ++ toString 2 = "sink_2" := by decide
    simp only [placed_rect, hs, pad_prop_main env hloop]
    simp [pad_prop, main_start, static_pad, Event.pad_value, filter_caps]
  refine ⟨h0, h1, h2, ?_, ?_, ?_, ?_⟩
  · intro i j hi hj hij px py
    interval_cases i <;> interval_cases j <;>
      simp only [h0, h1, h2, Rect.covers, ne_eq, not_true_eq_false] at hij ⊢ <;> omega
  · rw [h0, h1, h2]; decide
  · rw [h1]; decide
  · rw [h2]; decide

theorem placements_disjoint_witness :
    Event.g_main_loop_run ∈ (main env_fault).trace ∧
    bounding_box [placed_rect (main env_fault).trace 0 0 0,
      placed_rect (main env_fault).trace 0 0 1,
      placed_rect (main env_fault).trace 0 0 2] = some ⟨0, 0, 1280, 720⟩ :=
  ⟨by decide, (placements_disjoint env_fault (by decide)).2.2.2.2.1⟩

end Streamlabs
